import Mathlib

/-!
# geotiffCorners

A shallow embedding of `src/geotiffCorners.cpp` (the function `main`) and the
properties of it that the specification states.

Conventions of the embedding.

* `double` arithmetic is read as exact: every `double` is a rational number.
* `int` values (`argc`, the raster sizes, the GCP count, result codes) are
  integers; no arithmetic of the program is done on them, so no overflow arises.
* The geospatial library is external.  What it answers is an input of the
  model: `GDALOpen` maps a file name to the dataset it opens (or to `none` for
  a `NULL` handle), a dataset is the record of the answers its methods give,
  and `GDALGCPsToGeoTransform` is an arbitrary function from the GCPs to the
  `int` it returns and the six coefficients it wrote.  The library returns
  `TRUE` from it on success and `FALSE` on failure; `main` compares the value
  with `CE_None`.
* Standard output is the list of the things written to it, in order; every
  library call is logged, in order.
-/

namespace GeotiffCorners

/-- The array `double geoTransform[6]`: the field `ck` is `geoTransform[k]`. -/
structure GeoTransform where
  c0 : ℚ
  c1 : ℚ
  c2 : ℚ
  c3 : ℚ
  c4 : ℚ
  c5 : ℚ
  deriving DecidableEq, Repr

/-- The library's ground control point record `GDAL_GCP`. -/
structure GDAL_GCP where
  pszId : String
  pszInfo : String
  dfGCPPixel : ℚ
  dfGCPLine : ℚ
  dfGCPX : ℚ
  dfGCPY : ℚ
  dfGCPZ : ℚ
  deriving DecidableEq, Repr

/-- The library's result code `CE_None` (no error), which is `0`. -/
def CE_None : Int := 0

/-- The library's `TRUE`, which is `1`.  `GDALGCPsToGeoTransform` is declared
`int`, not `CPLErr`: the library documents that it returns `TRUE` on success and
`FALSE` (`0`) on failure. -/
def TRUE : Int := 1

/-- An open `GDALDataset`, as the record of what its methods answer.
`GetDriverLongName` is `GetDriver()->GetMetadataItem(GDAL_DMD_LONGNAME)`
(`none` for `NULL`); `GetGeoTransform` is the result code together with the
contents of the array the call filled. -/
structure GDALDataset where
  GetDriverLongName : Option String
  GetGeoTransform : Int × GeoTransform
  GetGCPCount : Int
  GetGCPs : List GDAL_GCP
  GetRasterXSize : Int
  GetRasterYSize : Int
  deriving DecidableEq, Repr

/-- One write to standard output: a text written through `std::cout`, or one
`printf("%2.15lf %2.15lf\n", lon, lat)` line, kept as the pair of numbers. -/
inductive Out where
  | text (s : String)
  | coords (lon lat : ℚ)
  deriving DecidableEq, Repr

/-- One call into the library. -/
inductive Call where
  | GDALAllRegister
  | GDALOpen (file : String)
  | GetDriverLongName
  | GetGeoTransform
  | GetGCPCount
  | GetRasterXSize
  | GetRasterYSize
  | GetGCPs
  | GDALGCPsToGeoTransform
  deriving DecidableEq, Repr

/-- What has been observed of a run so far: standard output and library calls. -/
structure Log where
  out : List Out
  calls : List Call
  deriving DecidableEq, Repr

/-- The log extended with a text written to `std::cout`. -/
def Log.cout (l : Log) (s : String) : Log :=
  { l with out := l.out ++ [Out.text s] }

/-- The log extended with one `printf("%2.15lf %2.15lf\n", lon, lat)`. -/
def Log.printf (l : Log) (lon lat : ℚ) : Log :=
  { l with out := l.out ++ [Out.coords lon lat] }

/-- The log extended with a library call. -/
def Log.call (l : Log) (c : Call) : Log :=
  { l with calls := l.calls ++ [c] }

/-- A finished run: the log and the value `main` returned. -/
structure Run where
  log : Log
  status : Int
  deriving DecidableEq, Repr

/-- The function `main` of `geotiffCorners.cpp`.  `argv` is the whole argument
vector (program name included) and `argc` is its length.  `std::endl` is the
character `\n`.  The value `GDALGCPsToGeoTransform` returns is compared with
`CE_None`, as the source does; nothing is assumed about what the library returns.
An opened dataset is taken to have a driver (`GetDriver()` is not `NULL`). -/
def main (GDALOpen : String → Option GDALDataset)
    (GDALGCPsToGeoTransform : Int → List GDAL_GCP → Int → Int × GeoTransform)
    (argv : List String) : Run :=
  let argc : Int := argv.length
  let l : Log := { out := [], calls := [] }
  if argc ≠ 2 then
    { log := l.cout "usage: geotiffCorners <file>\n", status := 1 }
  else
    let file := argv.getD 1 ""
    let l := l.call Call.GDALAllRegister
    let l := l.call (Call.GDALOpen file)
    match GDALOpen file with
    | none => { log := l.cout ("Error opening file: " ++ file ++ "\n"), status := 1 }
    | some dataset =>
      let l := l.call Call.GetDriverLongName
      if dataset.GetDriverLongName = none then
        { log := l.cout "File is not a valid geotiff\n", status := 1 }
      else
        let l := l.call Call.GetGeoTransform
        let geoTransform := dataset.GetGeoTransform.2
        let hasGeoTransform : Bool := decide (dataset.GetGeoTransform.1 = CE_None)
        let l := if hasGeoTransform then l else l.cout "No geotransform found\n"
        let search : Bool × Log :=
          if !hasGeoTransform then
            -- Search for GCPs
            let l := l.call Call.GetGCPCount
            if dataset.GetGCPCount > 0 then (true, l) else (false, l.cout "No GCPs found\n")
          else (false, l)
        let hasGCPs : Bool := search.1
        let l := search.2
        if hasGeoTransform then
          let l := l.call Call.GetRasterXSize
          let width : Int := dataset.GetRasterXSize
          let l := l.call Call.GetRasterYSize
          let height : Int := dataset.GetRasterYSize
          -- Upper left
          let lon := geoTransform.c0 + 0.5 * geoTransform.c1 + 0.5 * geoTransform.c2
          let lat := geoTransform.c3 + 0.5 * geoTransform.c4 + 0.5 * geoTransform.c5
          let l := l.printf lon lat
          -- Upper right
          let lon := geoTransform.c0 + ((width : ℚ) - 0.5) * geoTransform.c1 + 0.5 * geoTransform.c2
          let lat := geoTransform.c3 + ((width : ℚ) - 0.5) * geoTransform.c4 + 0.5 * geoTransform.c5
          let l := l.printf lon lat
          -- Lower right
          let lon := geoTransform.c0 + ((width : ℚ) - 0.5) * geoTransform.c1
            + ((height : ℚ) - 0.5) * geoTransform.c2
          let lat := geoTransform.c3 + ((width : ℚ) - 0.5) * geoTransform.c4
            + ((height : ℚ) - 0.5) * geoTransform.c5
          let l := l.printf lon lat
          -- Lower left
          let lon := geoTransform.c0 + 0.5 * geoTransform.c1 + ((height : ℚ) - 0.5) * geoTransform.c2
          let lat := geoTransform.c3 + 0.5 * geoTransform.c4 + ((height : ℚ) - 0.5) * geoTransform.c5
          let l := l.printf lon lat
          { log := l, status := 0 }
        else if hasGCPs then
          let l := l.call Call.GetGCPCount
          if dataset.GetGCPCount < 3 then
            { log := l.cout "Not enough GCPs to create a geotransform\n", status := 1 }
          else
            let l := l.call Call.GetRasterXSize
            let width : Int := dataset.GetRasterXSize
            let l := l.call Call.GetRasterYSize
            let height : Int := dataset.GetRasterYSize
            let l := l.call Call.GetGCPs
            let gcps := dataset.GetGCPs
            let l := l.call Call.GetGCPCount
            let l := l.call Call.GDALGCPsToGeoTransform
            let res : Int := (GDALGCPsToGeoTransform dataset.GetGCPCount gcps 1).1
            let geoTransform := (GDALGCPsToGeoTransform dataset.GetGCPCount gcps 1).2
            if res ≠ CE_None then
              { log := l.cout "Error creating geotransform from GCPs\n", status := 1 }
            else
              -- Upper left
              let lon := geoTransform.c0 + 0.5 * geoTransform.c1 + 0.5 * geoTransform.c2
              let lat := geoTransform.c3 + 0.5 * geoTransform.c4 + 0.5 * geoTransform.c5
              let l := l.printf lon lat
              -- Upper right
              let lon := geoTransform.c0 + ((width : ℚ) - 0.5) * geoTransform.c1
                + 0.5 * geoTransform.c2
              let lat := geoTransform.c3 + ((width : ℚ) - 0.5) * geoTransform.c4
                + 0.5 * geoTransform.c5
              let l := l.printf lon lat
              -- Lower right
              let lon := geoTransform.c0 + ((width : ℚ) - 0.5) * geoTransform.c1
                + ((height : ℚ) - 0.5) * geoTransform.c2
              let lat := geoTransform.c3 + ((width : ℚ) - 0.5) * geoTransform.c4
                + ((height : ℚ) - 0.5) * geoTransform.c5
              let l := l.printf lon lat
              -- Lower left
              let lon := geoTransform.c0 + 0.5 * geoTransform.c1
                + ((height : ℚ) - 0.5) * geoTransform.c2
              let lat := geoTransform.c3 + 0.5 * geoTransform.c4
                + ((height : ℚ) - 0.5) * geoTransform.c5
              let l := l.printf lon lat
              { log := l, status := 0 }
        else
          { log := l.cout "No geotransform or GCPs found\n", status := 1 }

/-- Stated by the spec: the image of the pixel position `(px, py)` under the
transform `t`, `X = c0 + px*c1 + py*c2` and `Y = c3 + px*c4 + py*c5`. -/
def specCorner (t : GeoTransform) (px py : ℚ) : ℚ × ℚ :=
  (t.c0 + px * t.c1 + py * t.c2, t.c3 + px * t.c4 + py * t.c5)

/-- Stated by the spec: the four corners of a `w` by `h` raster under `t`, in the
order upper-left, upper-right, lower-right, lower-left, at the inset `0.5`. -/
def specCorners (t : GeoTransform) (w h : Int) : List (ℚ × ℚ) :=
  [specCorner t 0.5 0.5, specCorner t ((w : ℚ) - 0.5) 0.5,
   specCorner t ((w : ℚ) - 0.5) ((h : ℚ) - 0.5), specCorner t 0.5 ((h : ℚ) - 0.5)]

/-- The output line that carries a coordinate pair. -/
def coordsLine (p : ℚ × ℚ) : Out := Out.coords p.1 p.2

/-- The coordinate pairs among the things written, in the order written. -/
def coordsOf : List Out → List (ℚ × ℚ)
  | [] => []
  | Out.coords lon lat :: rest => (lon, lat) :: coordsOf rest
  | Out.text _ :: rest => coordsOf rest

/-- Whether the characters `needle` stand at the head of `hay`. -/
def startsWith : List Char → List Char → Bool
  | [], _ => true
  | _ :: _, [] => false
  | a :: as, b :: bs => a == b && startsWith as bs

/-- Whether the characters `needle` occur consecutively somewhere in `hay`. -/
def occursIn (needle : List Char) : List Char → Bool
  | [] => startsWith needle []
  | b :: bs => startsWith needle (b :: bs) || occursIn needle bs

/-- Whether an output item is a text in which `needle` occurs. -/
def Out.mentions (needle : String) : Out → Bool
  | Out.text s => occursIn needle.data s.data
  | Out.coords _ _ => false

/-! ## What each path of `main` writes and calls -/

/-- The calls made up to and including the transform query. -/
def callsToTransform (file : String) : List Call :=
  [Call.GDALAllRegister, Call.GDALOpen file, Call.GetDriverLongName, Call.GetGeoTransform]

/-- The four `printf` lines of the branch taken when the dataset has a transform. -/
def directLines (t : GeoTransform) (width height : Int) : List Out :=
  [Out.coords (t.c0 + 0.5 * t.c1 + 0.5 * t.c2) (t.c3 + 0.5 * t.c4 + 0.5 * t.c5),
   Out.coords (t.c0 + ((width : ℚ) - 0.5) * t.c1 + 0.5 * t.c2)
     (t.c3 + ((width : ℚ) - 0.5) * t.c4 + 0.5 * t.c5),
   Out.coords (t.c0 + ((width : ℚ) - 0.5) * t.c1 + ((height : ℚ) - 0.5) * t.c2)
     (t.c3 + ((width : ℚ) - 0.5) * t.c4 + ((height : ℚ) - 0.5) * t.c5),
   Out.coords (t.c0 + 0.5 * t.c1 + ((height : ℚ) - 0.5) * t.c2)
     (t.c3 + 0.5 * t.c4 + ((height : ℚ) - 0.5) * t.c5)]

/-- The four `printf` lines of the branch taken when a transform was fitted. -/
def fittedLines (t : GeoTransform) (width height : Int) : List Out :=
  [Out.coords (t.c0 + 0.5 * t.c1 + 0.5 * t.c2) (t.c3 + 0.5 * t.c4 + 0.5 * t.c5),
   Out.coords (t.c0 + ((width : ℚ) - 0.5) * t.c1 + 0.5 * t.c2)
     (t.c3 + ((width : ℚ) - 0.5) * t.c4 + 0.5 * t.c5),
   Out.coords (t.c0 + ((width : ℚ) - 0.5) * t.c1 + ((height : ℚ) - 0.5) * t.c2)
     (t.c3 + ((width : ℚ) - 0.5) * t.c4 + ((height : ℚ) - 0.5) * t.c5),
   Out.coords (t.c0 + 0.5 * t.c1 + ((height : ℚ) - 0.5) * t.c2)
     (t.c3 + 0.5 * t.c4 + ((height : ℚ) - 0.5) * t.c5)]

/-- The calls of the branch that fits a transform, after the transform query. -/
def callsOfFit : List Call :=
  [Call.GetGCPCount, Call.GetGCPCount, Call.GetRasterXSize, Call.GetRasterYSize,
   Call.GetGCPs, Call.GetGCPCount, Call.GDALGCPsToGeoTransform]

/-! ## Sample inputs -/

/-- The north-up unit transform `(0, 1, 0, 0, 0, -1)`. -/
def unitTransform : GeoTransform :=
  { c0 := 0, c1 := 1, c2 := 0, c3 := 0, c4 := 0, c5 := -1 }

/-- A 10 by 10 raster that carries `unitTransform` and no GCP. -/
def tenByTen : GDALDataset :=
  { GetDriverLongName := some "GeoTIFF", GetGeoTransform := (CE_None, unitTransform),
    GetGCPCount := 0, GetGCPs := [], GetRasterXSize := 10, GetRasterYSize := 10 }

/-- A ground control point at pixel `(p, l)` with ground position `(x, y)`. -/
def gcpAt (p l x y : ℚ) : GDAL_GCP :=
  { pszId := "", pszInfo := "", dfGCPPixel := p, dfGCPLine := l, dfGCPX := x, dfGCPY := y,
    dfGCPZ := 0 }

/-- A 10 by 10 raster without a transform (the query answers `CE_Failure`, 3) that
reports `n` GCPs. -/
def withoutTransform (n : Int) (gcps : List GDAL_GCP) : GDALDataset :=
  { GetDriverLongName := some "GeoTIFF", GetGeoTransform := (3, unitTransform),
    GetGCPCount := n, GetGCPs := gcps, GetRasterXSize := 10, GetRasterYSize := 10 }

/-- Three GCPs that lie on `unitTransform`. -/
def threeGCPs : List GDAL_GCP :=
  [gcpAt 0 0 0 0, gcpAt 10 0 10 0, gcpAt 0 10 0 (-10)]

/-- A fit that answers `CE_None` and writes `unitTransform`. -/
def fitUnit : Int → List GDAL_GCP → Int → Int × GeoTransform :=
  fun _ _ _ => (CE_None, unitTransform)

/-- A fit that succeeds the way the library reports success: it answers `TRUE` and
writes `unitTransform`, the exact fit of `threeGCPs`. -/
def fitSucceeds : Int → List GDAL_GCP → Int → Int × GeoTransform :=
  fun _ _ _ => (TRUE, unitTransform)

/-- A fit that answers a code other than `CE_None`. -/
def fitRefused : Int → List GDAL_GCP → Int → Int × GeoTransform :=
  fun _ _ _ => (3, { c0 := 7, c1 := 7, c2 := 7, c3 := 7, c4 := 7, c5 := 7 })

/-! ## The runs of `main`, path by path -/

theorem main_usage
    (GDALOpen : String → Option GDALDataset)
    (GDALGCPsToGeoTransform : Int → List GDAL_GCP → Int → Int × GeoTransform)
    (argv : List String)
    (h : argv.length ≠ 2) :
    main GDALOpen GDALGCPsToGeoTransform argv
      = { log := { out := [Out.text "usage: geotiffCorners <file>\n"], calls := [] },
          status := 1 } := by
  have hi : ¬ ((argv.length : Int) = 2) := by exact_mod_cast h
  simp [main, hi, Log.cout]

theorem main_open_failure
    (GDALOpen : String → Option GDALDataset)
    (GDALGCPsToGeoTransform : Int → List GDAL_GCP → Int → Int × GeoTransform)
    (argv : List String)
    (h : argv.length = 2) (ho : GDALOpen (argv.getD 1 "") = none) :
    main GDALOpen GDALGCPsToGeoTransform argv
      = { log := { out := [Out.text ("Error opening file: " ++ argv.getD 1 "" ++ "\n")],
                   calls := [Call.GDALAllRegister, Call.GDALOpen (argv.getD 1 "")] },
          status := 1 } := by
  have hi : (argv.length : Int) = 2 := by exact_mod_cast h
  simp only [List.getD_eq_getElem?_getD] at ho
  simp [main, hi, ho, Log.cout, Log.call]

theorem main_not_valid
    (GDALOpen : String → Option GDALDataset)
    (GDALGCPsToGeoTransform : Int → List GDAL_GCP → Int → Int × GeoTransform)
    (argv : List String) (dataset : GDALDataset)
    (h : argv.length = 2) (ho : GDALOpen (argv.getD 1 "") = some dataset)
    (hn : dataset.GetDriverLongName = none) :
    main GDALOpen GDALGCPsToGeoTransform argv
      = { log := { out := [Out.text "File is not a valid geotiff\n"],
                   calls := [Call.GDALAllRegister, Call.GDALOpen (argv.getD 1 ""),
                             Call.GetDriverLongName] },
          status := 1 } := by
  have hi : (argv.length : Int) = 2 := by exact_mod_cast h
  simp only [List.getD_eq_getElem?_getD] at ho
  simp [main, hi, ho, hn, Log.cout, Log.call]

theorem main_direct
    (GDALOpen : String → Option GDALDataset)
    (GDALGCPsToGeoTransform : Int → List GDAL_GCP → Int → Int × GeoTransform)
    (argv : List String) (dataset : GDALDataset)
    (h : argv.length = 2) (ho : GDALOpen (argv.getD 1 "") = some dataset)
    (hn : dataset.GetDriverLongName ≠ none) (hg : dataset.GetGeoTransform.1 = CE_None) :
    main GDALOpen GDALGCPsToGeoTransform argv
      = { log := { out := directLines dataset.GetGeoTransform.2 dataset.GetRasterXSize
                            dataset.GetRasterYSize,
                   calls := callsToTransform (argv.getD 1 "")
                            ++ [Call.GetRasterXSize, Call.GetRasterYSize] },
          status := 0 } := by
  have hi : (argv.length : Int) = 2 := by exact_mod_cast h
  simp only [List.getD_eq_getElem?_getD] at ho
  simp [main, hi, ho, hn, hg, Log.call, Log.printf, directLines, callsToTransform]

theorem main_no_gcps
    (GDALOpen : String → Option GDALDataset)
    (GDALGCPsToGeoTransform : Int → List GDAL_GCP → Int → Int × GeoTransform)
    (argv : List String) (dataset : GDALDataset)
    (h : argv.length = 2) (ho : GDALOpen (argv.getD 1 "") = some dataset)
    (hn : dataset.GetDriverLongName ≠ none) (hg : dataset.GetGeoTransform.1 ≠ CE_None)
    (hc : dataset.GetGCPCount ≤ 0) :
    main GDALOpen GDALGCPsToGeoTransform argv
      = { log := { out := [Out.text "No geotransform found\n", Out.text "No GCPs found\n",
                           Out.text "No geotransform or GCPs found\n"],
                   calls := callsToTransform (argv.getD 1 "") ++ [Call.GetGCPCount] },
          status := 1 } := by
  have hc2 : ¬ (0 < dataset.GetGCPCount) := not_lt.mpr hc
  have hi : (argv.length : Int) = 2 := by exact_mod_cast h
  simp only [List.getD_eq_getElem?_getD] at ho
  simp [main, hi, ho, hn, hg, hc2, Log.call, Log.cout, callsToTransform]

theorem main_few_gcps
    (GDALOpen : String → Option GDALDataset)
    (GDALGCPsToGeoTransform : Int → List GDAL_GCP → Int → Int × GeoTransform)
    (argv : List String) (dataset : GDALDataset)
    (h : argv.length = 2) (ho : GDALOpen (argv.getD 1 "") = some dataset)
    (hn : dataset.GetDriverLongName ≠ none) (hg : dataset.GetGeoTransform.1 ≠ CE_None)
    (hc : 0 < dataset.GetGCPCount) (hc3 : dataset.GetGCPCount < 3) :
    main GDALOpen GDALGCPsToGeoTransform argv
      = { log := { out := [Out.text "No geotransform found\n",
                           Out.text "Not enough GCPs to create a geotransform\n"],
                   calls := callsToTransform (argv.getD 1 "")
                            ++ [Call.GetGCPCount, Call.GetGCPCount] },
          status := 1 } := by
  have hi : (argv.length : Int) = 2 := by exact_mod_cast h
  simp only [List.getD_eq_getElem?_getD] at ho
  simp [main, hi, ho, hn, hg, hc, hc3, Log.call, Log.cout, callsToTransform]

theorem main_fit_failure
    (GDALOpen : String → Option GDALDataset)
    (GDALGCPsToGeoTransform : Int → List GDAL_GCP → Int → Int × GeoTransform)
    (argv : List String) (dataset : GDALDataset)
    (h : argv.length = 2)
    (ho : GDALOpen (argv.getD 1 "") = some dataset)
    (hn : dataset.GetDriverLongName ≠ none) (hg : dataset.GetGeoTransform.1 ≠ CE_None)
    (hc3 : 3 ≤ dataset.GetGCPCount)
    (hf : (GDALGCPsToGeoTransform dataset.GetGCPCount dataset.GetGCPs 1).1 ≠ CE_None) :
    main GDALOpen GDALGCPsToGeoTransform argv
      = { log := { out := [Out.text "No geotransform found\n",
                           Out.text "Error creating geotransform from GCPs\n"],
                   calls := callsToTransform (argv.getD 1 "") ++ callsOfFit },
          status := 1 } := by
  have hc : 0 < dataset.GetGCPCount := by omega
  have hc2 : ¬ (dataset.GetGCPCount < 3) := not_lt.mpr hc3
  have hi : (argv.length : Int) = 2 := by exact_mod_cast h
  simp only [List.getD_eq_getElem?_getD] at ho
  simp [main, hi, ho, hn, hg, hc, hc2, hf, Log.call, Log.cout, callsToTransform, callsOfFit]

theorem main_fit_success
    (GDALOpen : String → Option GDALDataset)
    (GDALGCPsToGeoTransform : Int → List GDAL_GCP → Int → Int × GeoTransform)
    (argv : List String) (dataset : GDALDataset)
    (h : argv.length = 2)
    (ho : GDALOpen (argv.getD 1 "") = some dataset)
    (hn : dataset.GetDriverLongName ≠ none) (hg : dataset.GetGeoTransform.1 ≠ CE_None)
    (hc3 : 3 ≤ dataset.GetGCPCount)
    (hf : (GDALGCPsToGeoTransform dataset.GetGCPCount dataset.GetGCPs 1).1 = CE_None) :
    main GDALOpen GDALGCPsToGeoTransform argv
      = { log := { out := Out.text "No geotransform found\n" ::
                     fittedLines (GDALGCPsToGeoTransform dataset.GetGCPCount dataset.GetGCPs 1).2
                       dataset.GetRasterXSize dataset.GetRasterYSize,
                   calls := callsToTransform (argv.getD 1 "") ++ callsOfFit },
          status := 0 } := by
  have hc : 0 < dataset.GetGCPCount := by omega
  have hc2 : ¬ (dataset.GetGCPCount < 3) := not_lt.mpr hc3
  have hi : (argv.length : Int) = 2 := by exact_mod_cast h
  simp only [List.getD_eq_getElem?_getD] at ho
  simp [main, hi, ho, hn, hg, hc, hc2, hf, Log.call, Log.cout, Log.printf, callsToTransform,
    callsOfFit, fittedLines]

/-! ## Shared facts -/

theorem coordsOf_directLines (t : GeoTransform) (w h : Int) :
    coordsOf (directLines t w h) = specCorners t w h := by
  simp [coordsOf, directLines, specCorners, specCorner]

theorem coordsOf_fittedLines (t : GeoTransform) (w h : Int) :
    coordsOf (fittedLines t w h) = specCorners t w h := by
  simp [coordsOf, fittedLines, specCorners, specCorner]

theorem directLines_eq (t : GeoTransform) (w h : Int) :
    directLines t w h = (specCorners t w h).map coordsLine := by
  simp [directLines, specCorners, specCorner, coordsLine]

theorem fittedLines_eq (t : GeoTransform) (w h : Int) :
    fittedLines t w h = (specCorners t w h).map coordsLine := by
  simp [fittedLines, specCorners, specCorner, coordsLine]

theorem coordsOf_text_cons (s : String) (rest : List Out) :
    coordsOf (Out.text s :: rest) = coordsOf rest := rfl

/-! ## The claims -/

/-- C1: when the dataset provides the transform `t` directly, then for every
width `w` and height `h` the program prints exactly four lines, the corners
upper-left, upper-right, lower-right, lower-left in this order, each corner being
`(c0 + px*c1 + py*c2, c3 + px*c4 + py*c5)` at `(px, py) = (0.5, 0.5)`,
`(w-0.5, 0.5)`, `(w-0.5, h-0.5)`, `(0.5, h-0.5)`. -/
theorem direct_transform_prints_spec_corners
    (GDALOpen : String → Option GDALDataset)
    (GDALGCPsToGeoTransform : Int → List GDAL_GCP → Int → Int × GeoTransform)
    (argv : List String) (dataset : GDALDataset) (t : GeoTransform) (w h : Int)
    (hargc : argv.length = 2) (hopen : GDALOpen (argv.getD 1 "") = some dataset)
    (hname : dataset.GetDriverLongName ≠ none)
    (ht : dataset.GetGeoTransform = (CE_None, t))
    (hw : dataset.GetRasterXSize = w) (hh : dataset.GetRasterYSize = h) :
    (main GDALOpen GDALGCPsToGeoTransform argv).log.out
      = [coordsLine (specCorner t 0.5 0.5),
         coordsLine (specCorner t ((w : ℚ) - 0.5) 0.5),
         coordsLine (specCorner t ((w : ℚ) - 0.5) ((h : ℚ) - 0.5)),
         coordsLine (specCorner t 0.5 ((h : ℚ) - 0.5))] := by
  have hg : dataset.GetGeoTransform.1 = CE_None := by rw [ht]
  rw [main_direct GDALOpen GDALGCPsToGeoTransform argv dataset hargc hopen hname hg]
  simp [directLines, coordsLine, specCorner, ht, hw, hh]

theorem direct_transform_prints_spec_corners_witness :
    (main (fun _ => some tenByTen) fitRefused ["geotiffCorners", "a.tif"]).log.out
      = [coordsLine (specCorner unitTransform 0.5 0.5),
         coordsLine (specCorner unitTransform (((10 : Int) : ℚ) - 0.5) 0.5),
         coordsLine (specCorner unitTransform (((10 : Int) : ℚ) - 0.5) (((10 : Int) : ℚ) - 0.5)),
         coordsLine (specCorner unitTransform 0.5 (((10 : Int) : ℚ) - 0.5))] :=
  direct_transform_prints_spec_corners (fun _ => some tenByTen) fitRefused
    ["geotiffCorners", "a.tif"] tenByTen unitTransform 10 10 rfl rfl (by decide) rfl rfl rfl

/-- C2: for the transform `(0, 1, 0, 0, 0, -1)` and a raster 10 wide and 10 high,
the upper-left corner printed (the first line) is `(0.5, -0.5)` and the
lower-right corner printed (the third line) is `(9.5, -9.5)`. -/
theorem unit_transform_ten_by_ten
    (GDALOpen : String → Option GDALDataset)
    (GDALGCPsToGeoTransform : Int → List GDAL_GCP → Int → Int × GeoTransform)
    (argv : List String) (dataset : GDALDataset)
    (hargc : argv.length = 2) (hopen : GDALOpen (argv.getD 1 "") = some dataset)
    (hname : dataset.GetDriverLongName ≠ none)
    (ht : dataset.GetGeoTransform
      = (CE_None, { c0 := 0, c1 := 1, c2 := 0, c3 := 0, c4 := 0, c5 := -1 }))
    (hw : dataset.GetRasterXSize = 10) (hh : dataset.GetRasterYSize = 10) :
    (main GDALOpen GDALGCPsToGeoTransform argv).log.out[0]? = some (Out.coords 0.5 (-0.5))
      ∧ (main GDALOpen GDALGCPsToGeoTransform argv).log.out[2]?
          = some (Out.coords 9.5 (-9.5)) := by
  have hg : dataset.GetGeoTransform.1 = CE_None := by rw [ht]
  rw [main_direct GDALOpen GDALGCPsToGeoTransform argv dataset hargc hopen hname hg]
  simp only [directLines, ht, hw, hh]
  constructor <;> norm_num

theorem unit_transform_ten_by_ten_witness :
    (main (fun _ => some tenByTen) fitRefused ["geotiffCorners", "a.tif"]).log.out[0]?
        = some (Out.coords 0.5 (-0.5))
      ∧ (main (fun _ => some tenByTen) fitRefused ["geotiffCorners", "a.tif"]).log.out[2]?
          = some (Out.coords 9.5 (-9.5)) :=
  unit_transform_ten_by_ten (fun _ => some tenByTen) fitRefused ["geotiffCorners", "a.tif"]
    tenByTen rfl rfl (by decide) rfl rfl rfl

/-- C4, as stated, fails at a GCP count of 0: the run exits with status 1, but what
it prints is "No geotransform found", "No GCPs found" and "No geotransform or GCPs
found"; the message "Not enough GCPs to create a geotransform" is not printed. -/
theorem zero_gcps_prints_other_message :
    (main (fun _ => some (withoutTransform 0 [])) fitUnit ["geotiffCorners", "a.tif"]).status = 1
      ∧ (main (fun _ => some (withoutTransform 0 [])) fitUnit ["geotiffCorners", "a.tif"]).log.out
          = [Out.text "No geotransform found\n", Out.text "No GCPs found\n",
             Out.text "No geotransform or GCPs found\n"]
      ∧ Out.text "Not enough GCPs to create a geotransform\n"
          ∉ (main (fun _ => some (withoutTransform 0 [])) fitUnit
              ["geotiffCorners", "a.tif"]).log.out := by
  rw [main_no_gcps (fun _ => some (withoutTransform 0 [])) fitUnit ["geotiffCorners", "a.tif"]
    (withoutTransform 0 []) rfl rfl (by decide) (by decide) (by decide)]
  refine ⟨rfl, rfl, ?_⟩
  decide

/-- C4, amended: for a dataset that opens and validates and has no direct
transform, a GCP count of 1 or 2 makes the program exit with status 1 after
printing "No geotransform found" and the message "Not enough GCPs to create a
geotransform"; a GCP count of 0 makes it exit with status 1 after printing "No
geotransform found", "No GCPs found" and "No geotransform or GCPs found". -/
theorem too_few_gcps
    (GDALOpen : String → Option GDALDataset)
    (GDALGCPsToGeoTransform : Int → List GDAL_GCP → Int → Int × GeoTransform)
    (argv : List String) (dataset : GDALDataset)
    (hargc : argv.length = 2) (hopen : GDALOpen (argv.getD 1 "") = some dataset)
    (hname : dataset.GetDriverLongName ≠ none)
    (hg : dataset.GetGeoTransform.1 ≠ CE_None) :
    (dataset.GetGCPCount = 1 ∨ dataset.GetGCPCount = 2 →
        (main GDALOpen GDALGCPsToGeoTransform argv).status = 1
          ∧ (main GDALOpen GDALGCPsToGeoTransform argv).log.out
              = [Out.text "No geotransform found\n",
                 Out.text "Not enough GCPs to create a geotransform\n"])
      ∧ (dataset.GetGCPCount = 0 →
        (main GDALOpen GDALGCPsToGeoTransform argv).status = 1
          ∧ (main GDALOpen GDALGCPsToGeoTransform argv).log.out
              = [Out.text "No geotransform found\n", Out.text "No GCPs found\n",
                 Out.text "No geotransform or GCPs found\n"]) := by
  constructor
  · intro hc
    have h0 : 0 < dataset.GetGCPCount := by omega
    have h3 : dataset.GetGCPCount < 3 := by omega
    rw [main_few_gcps GDALOpen GDALGCPsToGeoTransform argv dataset hargc hopen hname hg h0 h3]
    exact ⟨rfl, rfl⟩
  · intro hc
    have h0 : dataset.GetGCPCount ≤ 0 := by omega
    rw [main_no_gcps GDALOpen GDALGCPsToGeoTransform argv dataset hargc hopen hname hg h0]
    exact ⟨rfl, rfl⟩

theorem too_few_gcps_witness :
    (main (fun _ => some (withoutTransform 2 [gcpAt 0 0 0 0, gcpAt 10 0 10 0])) fitUnit
        ["geotiffCorners", "a.tif"]).status = 1
      ∧ (main (fun _ => some (withoutTransform 2 [gcpAt 0 0 0 0, gcpAt 10 0 10 0])) fitUnit
          ["geotiffCorners", "a.tif"]).log.out
          = [Out.text "No geotransform found\n",
             Out.text "Not enough GCPs to create a geotransform\n"] :=
  (too_few_gcps (fun _ => some (withoutTransform 2 [gcpAt 0 0 0 0, gcpAt 10 0 10 0])) fitUnit
    ["geotiffCorners", "a.tif"] (withoutTransform 2 [gcpAt 0 0 0 0, gcpAt 10 0 10 0])
    rfl rfl (by decide) (by decide)).1 (Or.inr rfl)

/-- C5, as stated, fails when the transform is fitted from GCPs: the run returns 0
and standard output has five lines, the first of which is the text "No geotransform
found". -/
theorem fitted_run_prints_five_lines :
    (main (fun _ => some (withoutTransform 3 threeGCPs)) fitUnit
        ["geotiffCorners", "a.tif"]).status = 0
      ∧ (main (fun _ => some (withoutTransform 3 threeGCPs)) fitUnit
          ["geotiffCorners", "a.tif"]).log.out.length = 5
      ∧ (main (fun _ => some (withoutTransform 3 threeGCPs)) fitUnit
          ["geotiffCorners", "a.tif"]).log.out.head?
          = some (Out.text "No geotransform found\n") := by
  rw [main_fit_success (fun _ => some (withoutTransform 3 threeGCPs)) fitUnit
    ["geotiffCorners", "a.tif"] (withoutTransform 3 threeGCPs) rfl rfl (by decide) (by decide)
    (by decide) rfl]
  exact ⟨rfl, rfl, rfl⟩

/-- C5, amended: on every run that returns 0 the dataset was opened and standard
output holds exactly four coordinate lines; when the transform comes directly from
the dataset these four lines are the whole output, and when it is fitted from GCPs
they are preceded by the single line "No geotransform found" and nothing else. -/
theorem success_output
    (GDALOpen : String → Option GDALDataset)
    (GDALGCPsToGeoTransform : Int → List GDAL_GCP → Int → Int × GeoTransform)
    (argv : List String)
    (hok : (main GDALOpen GDALGCPsToGeoTransform argv).status = 0) :
    ∃ dataset : GDALDataset,
      GDALOpen (argv.getD 1 "") = some dataset
        ∧ (dataset.GetGeoTransform.1 = CE_None →
            (main GDALOpen GDALGCPsToGeoTransform argv).log.out
              = (specCorners dataset.GetGeoTransform.2 dataset.GetRasterXSize
                  dataset.GetRasterYSize).map coordsLine)
        ∧ (dataset.GetGeoTransform.1 ≠ CE_None →
            (main GDALOpen GDALGCPsToGeoTransform argv).log.out
              = Out.text "No geotransform found\n"
                :: (specCorners (GDALGCPsToGeoTransform dataset.GetGCPCount dataset.GetGCPs 1).2
                    dataset.GetRasterXSize dataset.GetRasterYSize).map coordsLine) := by
  by_cases hargc : argv.length = 2
  · cases hopen : GDALOpen (argv.getD 1 "") with
    | none =>
      rw [main_open_failure GDALOpen GDALGCPsToGeoTransform argv hargc hopen] at hok
      simp at hok
    | some dataset =>
      by_cases hname : dataset.GetDriverLongName = none
      · rw [main_not_valid GDALOpen GDALGCPsToGeoTransform argv dataset hargc hopen hname] at hok
        simp at hok
      · by_cases hg : dataset.GetGeoTransform.1 = CE_None
        · rw [main_direct GDALOpen GDALGCPsToGeoTransform argv dataset hargc hopen hname hg]
          exact ⟨dataset, rfl, fun _ => directLines_eq _ _ _, fun hne => absurd hg hne⟩
        · by_cases hc : dataset.GetGCPCount ≤ 0
          · rw [main_no_gcps GDALOpen GDALGCPsToGeoTransform argv dataset hargc hopen hname hg
              hc] at hok
            simp at hok
          · by_cases hc3 : dataset.GetGCPCount < 3
            · rw [main_few_gcps GDALOpen GDALGCPsToGeoTransform argv dataset hargc hopen hname
                hg (by omega) hc3] at hok
              simp at hok
            · by_cases hf :
                (GDALGCPsToGeoTransform dataset.GetGCPCount dataset.GetGCPs 1).1 = CE_None
              · rw [main_fit_success GDALOpen GDALGCPsToGeoTransform argv dataset hargc hopen
                  hname hg (by omega) hf]
                exact ⟨dataset, rfl, fun he => absurd he hg,
                  fun _ => congrArg _ (fittedLines_eq _ _ _)⟩
              · rw [main_fit_failure GDALOpen GDALGCPsToGeoTransform argv dataset hargc hopen
                  hname hg (by omega) hf] at hok
                simp at hok
  · rw [main_usage GDALOpen GDALGCPsToGeoTransform argv hargc] at hok
    simp at hok

theorem success_output_witness :
    ∃ dataset : GDALDataset,
      (fun _ => some (withoutTransform 3 threeGCPs) : String → Option GDALDataset)
          (["geotiffCorners", "a.tif"].getD 1 "") = some dataset
        ∧ (dataset.GetGeoTransform.1 = CE_None →
            (main (fun _ => some (withoutTransform 3 threeGCPs)) fitUnit
                ["geotiffCorners", "a.tif"]).log.out
              = (specCorners dataset.GetGeoTransform.2 dataset.GetRasterXSize
                  dataset.GetRasterYSize).map coordsLine)
        ∧ (dataset.GetGeoTransform.1 ≠ CE_None →
            (main (fun _ => some (withoutTransform 3 threeGCPs)) fitUnit
                ["geotiffCorners", "a.tif"]).log.out
              = Out.text "No geotransform found\n"
                :: (specCorners (fitUnit dataset.GetGCPCount dataset.GetGCPs 1).2
                    dataset.GetRasterXSize dataset.GetRasterYSize).map coordsLine) :=
  success_output (fun _ => some (withoutTransform 3 threeGCPs)) fitUnit
    ["geotiffCorners", "a.tif"]
    (by
      rw [main_fit_success (fun _ => some (withoutTransform 3 threeGCPs)) fitUnit
        ["geotiffCorners", "a.tif"] (withoutTransform 3 threeGCPs) rfl rfl (by decide)
        (by decide) (by decide) rfl])

/-- C6, as stated, fails for a file the library cannot open: the run exits with
status 1, but its only message is "Error opening file: a.txt", in which the words
"not a valid" do not occur. -/
theorem open_failure_prints_other_message :
    (main (fun _ => none) fitUnit ["geotiffCorners", "a.txt"]).status = 1
      ∧ (main (fun _ => none) fitUnit ["geotiffCorners", "a.txt"]).log.out
          = [Out.text "Error opening file: a.txt\n"]
      ∧ ∀ o ∈ (main (fun _ => none) fitUnit ["geotiffCorners", "a.txt"]).log.out,
          Out.mentions "not a valid" o = false := by
  rw [main_open_failure (fun _ => none) fitUnit ["geotiffCorners", "a.txt"] rfl rfl]
  refine ⟨rfl, by decide, ?_⟩
  decide

/-- C6, amended: a file the library cannot open makes the program exit with status
1 after the message "Error opening file: " followed by the file name; a file that
opens but whose driver carries no long-name metadata makes it exit with status 1
after the message "File is not a valid geotiff" (which contains "not a valid").  In
both cases the only library calls made are the registration, the open and, in the
second case, the driver metadata query: no transform query, GCP query or GCP fit. -/
theorem rejected_file
    (GDALOpen : String → Option GDALDataset)
    (GDALGCPsToGeoTransform : Int → List GDAL_GCP → Int → Int × GeoTransform)
    (argv : List String) (hargc : argv.length = 2) :
    (GDALOpen (argv.getD 1 "") = none →
        (main GDALOpen GDALGCPsToGeoTransform argv).status = 1
          ∧ (main GDALOpen GDALGCPsToGeoTransform argv).log.out
              = [Out.text ("Error opening file: " ++ argv.getD 1 "" ++ "\n")]
          ∧ (main GDALOpen GDALGCPsToGeoTransform argv).log.calls
              = [Call.GDALAllRegister, Call.GDALOpen (argv.getD 1 "")])
      ∧ (∀ dataset, GDALOpen (argv.getD 1 "") = some dataset →
          dataset.GetDriverLongName = none →
        (main GDALOpen GDALGCPsToGeoTransform argv).status = 1
          ∧ (main GDALOpen GDALGCPsToGeoTransform argv).log.out
              = [Out.text "File is not a valid geotiff\n"]
          ∧ Out.mentions "not a valid" (Out.text "File is not a valid geotiff\n") = true
          ∧ (main GDALOpen GDALGCPsToGeoTransform argv).log.calls
              = [Call.GDALAllRegister, Call.GDALOpen (argv.getD 1 ""),
                 Call.GetDriverLongName]) := by
  constructor
  · intro hopen
    rw [main_open_failure GDALOpen GDALGCPsToGeoTransform argv hargc hopen]
    exact ⟨rfl, rfl, rfl⟩
  · intro dataset hopen hname
    rw [main_not_valid GDALOpen GDALGCPsToGeoTransform argv dataset hargc hopen hname]
    exact ⟨rfl, rfl, by decide, rfl⟩

theorem rejected_file_witness :
    (main (fun _ => some { tenByTen with GetDriverLongName := none }) fitUnit
        ["geotiffCorners", "a.txt"]).status = 1
      ∧ (main (fun _ => some { tenByTen with GetDriverLongName := none }) fitUnit
          ["geotiffCorners", "a.txt"]).log.out = [Out.text "File is not a valid geotiff\n"]
      ∧ Out.mentions "not a valid" (Out.text "File is not a valid geotiff\n") = true
      ∧ (main (fun _ => some { tenByTen with GetDriverLongName := none }) fitUnit
          ["geotiffCorners", "a.txt"]).log.calls
          = [Call.GDALAllRegister, Call.GDALOpen (["geotiffCorners", "a.txt"].getD 1 ""),
             Call.GetDriverLongName] :=
  (rejected_file (fun _ => some { tenByTen with GetDriverLongName := none }) fitUnit
    ["geotiffCorners", "a.txt"] rfl).2 { tenByTen with GetDriverLongName := none } rfl rfl

/-- C7: whenever `argc` is not 2, the program returns 1, its whole output is the
usage message, and it makes no library call at all. -/
theorem usage_error
    (GDALOpen : String → Option GDALDataset)
    (GDALGCPsToGeoTransform : Int → List GDAL_GCP → Int → Int × GeoTransform)
    (argv : List String) (hargc : argv.length ≠ 2) :
    (main GDALOpen GDALGCPsToGeoTransform argv).status = 1
      ∧ (main GDALOpen GDALGCPsToGeoTransform argv).log.out
          = [Out.text "usage: geotiffCorners <file>\n"]
      ∧ (main GDALOpen GDALGCPsToGeoTransform argv).log.calls = [] := by
  rw [main_usage GDALOpen GDALGCPsToGeoTransform argv hargc]
  exact ⟨rfl, rfl, rfl⟩

theorem usage_error_witness :
    (main (fun _ => some tenByTen) fitUnit ["geotiffCorners", "a.tif", "b.tif"]).status = 1
      ∧ (main (fun _ => some tenByTen) fitUnit ["geotiffCorners", "a.tif", "b.tif"]).log.out
          = [Out.text "usage: geotiffCorners <file>\n"]
      ∧ (main (fun _ => some tenByTen) fitUnit ["geotiffCorners", "a.tif", "b.tif"]).log.calls
          = [] :=
  usage_error (fun _ => some tenByTen) fitUnit ["geotiffCorners", "a.tif", "b.tif"] (by decide)

/-- C8: for every argument vector and every answer of the library, the program
returns 0 exactly when it has printed four coordinate lines; and on every run that
does not return 0 it returns 1, has printed at least one message and has printed no
coordinate line at all. -/
theorem no_incomplete_results
    (GDALOpen : String → Option GDALDataset)
    (GDALGCPsToGeoTransform : Int → List GDAL_GCP → Int → Int × GeoTransform)
    (argv : List String) :
    ((main GDALOpen GDALGCPsToGeoTransform argv).status = 0
        ↔ (coordsOf (main GDALOpen GDALGCPsToGeoTransform argv).log.out).length = 4)
      ∧ ((main GDALOpen GDALGCPsToGeoTransform argv).status = 0
          ∨ ((main GDALOpen GDALGCPsToGeoTransform argv).status = 1
              ∧ coordsOf (main GDALOpen GDALGCPsToGeoTransform argv).log.out = []
              ∧ ∃ s, Out.text s ∈ (main GDALOpen GDALGCPsToGeoTransform argv).log.out)) := by
  by_cases hargc : argv.length = 2
  · cases hopen : GDALOpen (argv.getD 1 "") with
    | none =>
      rw [main_open_failure GDALOpen GDALGCPsToGeoTransform argv hargc hopen]
      simp [coordsOf]
    | some dataset =>
      by_cases hname : dataset.GetDriverLongName = none
      · rw [main_not_valid GDALOpen GDALGCPsToGeoTransform argv dataset hargc hopen hname]
        simp [coordsOf]
      · by_cases hg : dataset.GetGeoTransform.1 = CE_None
        · rw [main_direct GDALOpen GDALGCPsToGeoTransform argv dataset hargc hopen hname hg]
          simp [coordsOf_directLines, specCorners]
        · by_cases hc : dataset.GetGCPCount ≤ 0
          · rw [main_no_gcps GDALOpen GDALGCPsToGeoTransform argv dataset hargc hopen hname hg
              hc]
            simp [coordsOf]
          · by_cases hc3 : dataset.GetGCPCount < 3
            · rw [main_few_gcps GDALOpen GDALGCPsToGeoTransform argv dataset hargc hopen hname
                hg (by omega) hc3]
              simp [coordsOf]
            · by_cases hf :
                (GDALGCPsToGeoTransform dataset.GetGCPCount dataset.GetGCPs 1).1 = CE_None
              · rw [main_fit_success GDALOpen GDALGCPsToGeoTransform argv dataset hargc hopen
                  hname hg (by omega) hf]
                simp [coordsOf_text_cons, coordsOf_fittedLines, specCorners]
              · rw [main_fit_failure GDALOpen GDALGCPsToGeoTransform argv dataset hargc hopen
                  hname hg (by omega) hf]
                simp [coordsOf]
  · rw [main_usage GDALOpen GDALGCPsToGeoTransform argv hargc]
    simp [coordsOf]

/-- C9: the direct transform takes priority and excludes the GCP path.  Two runs on
the same arguments whose datasets open, validate and yield the same direct transform
`t` and the same width and height, and that differ arbitrarily in everything else
(GCP count, GCP contents, what the fit would answer), have the same exit status and
the same output; that output is the four corners of `t` alone, and neither run calls
the GCP count, the GCPs or the fit. -/
theorem direct_transform_has_priority
    (GDALOpen₁ GDALOpen₂ : String → Option GDALDataset)
    (fit₁ fit₂ : Int → List GDAL_GCP → Int → Int × GeoTransform)
    (argv : List String) (dataset₁ dataset₂ : GDALDataset) (t : GeoTransform)
    (hargc : argv.length = 2)
    (hopen₁ : GDALOpen₁ (argv.getD 1 "") = some dataset₁)
    (hopen₂ : GDALOpen₂ (argv.getD 1 "") = some dataset₂)
    (hname₁ : dataset₁.GetDriverLongName ≠ none)
    (hname₂ : dataset₂.GetDriverLongName ≠ none)
    (ht₁ : dataset₁.GetGeoTransform = (CE_None, t))
    (ht₂ : dataset₂.GetGeoTransform = (CE_None, t))
    (hw : dataset₁.GetRasterXSize = dataset₂.GetRasterXSize)
    (hh : dataset₁.GetRasterYSize = dataset₂.GetRasterYSize) :
    (main GDALOpen₁ fit₁ argv).status = (main GDALOpen₂ fit₂ argv).status
      ∧ (main GDALOpen₁ fit₁ argv).log.out = (main GDALOpen₂ fit₂ argv).log.out
      ∧ (main GDALOpen₁ fit₁ argv).status = 0
      ∧ (main GDALOpen₁ fit₁ argv).log.out
          = (specCorners t dataset₁.GetRasterXSize dataset₁.GetRasterYSize).map coordsLine
      ∧ (∀ c ∈ (main GDALOpen₁ fit₁ argv).log.calls ++ (main GDALOpen₂ fit₂ argv).log.calls,
          c ≠ Call.GDALGCPsToGeoTransform ∧ c ≠ Call.GetGCPs ∧ c ≠ Call.GetGCPCount) := by
  have hg₁ : dataset₁.GetGeoTransform.1 = CE_None := by rw [ht₁]
  have hg₂ : dataset₂.GetGeoTransform.1 = CE_None := by rw [ht₂]
  rw [main_direct GDALOpen₁ fit₁ argv dataset₁ hargc hopen₁ hname₁ hg₁,
    main_direct GDALOpen₂ fit₂ argv dataset₂ hargc hopen₂ hname₂ hg₂]
  refine ⟨rfl, ?_, rfl, ?_, ?_⟩
  · simp only [ht₁, ht₂, hw, hh]
  · simp only [ht₁, directLines_eq]
  · simp [callsToTransform]

theorem direct_transform_has_priority_witness :
    (main (fun _ => some tenByTen) fitRefused ["geotiffCorners", "a.tif"]).status
        = (main (fun _ => some { tenByTen with GetGCPCount := 3, GetGCPs := threeGCPs }) fitUnit
            ["geotiffCorners", "a.tif"]).status
      ∧ (main (fun _ => some tenByTen) fitRefused ["geotiffCorners", "a.tif"]).log.out
          = (main (fun _ => some { tenByTen with GetGCPCount := 3, GetGCPs := threeGCPs })
              fitUnit ["geotiffCorners", "a.tif"]).log.out
      ∧ (main (fun _ => some tenByTen) fitRefused ["geotiffCorners", "a.tif"]).status = 0
      ∧ (main (fun _ => some tenByTen) fitRefused ["geotiffCorners", "a.tif"]).log.out
          = (specCorners unitTransform tenByTen.GetRasterXSize
              tenByTen.GetRasterYSize).map coordsLine
      ∧ (∀ c ∈ (main (fun _ => some tenByTen) fitRefused ["geotiffCorners", "a.tif"]).log.calls
            ++ (main (fun _ => some { tenByTen with GetGCPCount := 3, GetGCPs := threeGCPs })
                fitUnit ["geotiffCorners", "a.tif"]).log.calls,
          c ≠ Call.GDALGCPsToGeoTransform ∧ c ≠ Call.GetGCPs ∧ c ≠ Call.GetGCPCount) :=
  direct_transform_has_priority (fun _ => some tenByTen)
    (fun _ => some { tenByTen with GetGCPCount := 3, GetGCPs := threeGCPs }) fitRefused fitUnit
    ["geotiffCorners", "a.tif"] tenByTen
    { tenByTen with GetGCPCount := 3, GetGCPs := threeGCPs } unitTransform
    rfl rfl rfl (by decide) (by decide) rfl rfl rfl rfl

/-- The two copies of the corner arithmetic agree: whenever the fit call answers
`CE_None` (the value `main` tests for) and writes `t`, the coordinate pairs printed
are those printed when `t` is the dataset's direct transform. -/
theorem fit_branch_arithmetic_agrees
    (GDALOpen₁ GDALOpen₂ : String → Option GDALDataset)
    (fit₁ fit₂ : Int → List GDAL_GCP → Int → Int × GeoTransform)
    (argv₁ argv₂ : List String) (direct fitted : GDALDataset) (t : GeoTransform)
    (hargc₁ : argv₁.length = 2) (hargc₂ : argv₂.length = 2)
    (hopen₁ : GDALOpen₁ (argv₁.getD 1 "") = some direct)
    (hopen₂ : GDALOpen₂ (argv₂.getD 1 "") = some fitted)
    (hname₁ : direct.GetDriverLongName ≠ none)
    (hname₂ : fitted.GetDriverLongName ≠ none)
    (ht : direct.GetGeoTransform = (CE_None, t))
    (hnone : fitted.GetGeoTransform.1 ≠ CE_None)
    (hcount : 3 ≤ fitted.GetGCPCount)
    (hfit : fit₂ fitted.GetGCPCount fitted.GetGCPs 1 = (CE_None, t))
    (hw : direct.GetRasterXSize = fitted.GetRasterXSize)
    (hh : direct.GetRasterYSize = fitted.GetRasterYSize) :
    coordsOf (main GDALOpen₂ fit₂ argv₂).log.out = coordsOf (main GDALOpen₁ fit₁ argv₁).log.out
      ∧ (coordsOf (main GDALOpen₂ fit₂ argv₂).log.out).length = 4 := by
  have hg : direct.GetGeoTransform.1 = CE_None := by rw [ht]
  have hf : (fit₂ fitted.GetGCPCount fitted.GetGCPs 1).1 = CE_None := by rw [hfit]
  rw [main_direct GDALOpen₁ fit₁ argv₁ direct hargc₁ hopen₁ hname₁ hg,
    main_fit_success GDALOpen₂ fit₂ argv₂ fitted hargc₂ hopen₂ hname₂ hnone hcount hf]
  simp [coordsOf, directLines, fittedLines, ht, hfit, hw, hh]

/-- C10, failing input: a 10 by 10 dataset without a direct transform and with three
GCPs, whose fit succeeds (the call answers `TRUE` and writes `(0, 1, 0, 0, 0, -1)`).
The claim says the run prints the four corner pairs that the same transform prints
as a direct transform, `(0.5, -0.5)`, `(9.5, -0.5)`, `(9.5, -9.5)`, `(0.5, -9.5)`.
The program tests the answer against `CE_None` (`res != CE_None`), takes the
successful fit for a failure, prints "Error creating geotransform from GCPs",
prints no corner pair and returns 1. -/
theorem successful_fit_prints_no_corner :
    (main (fun _ => some (withoutTransform 3 threeGCPs)) fitSucceeds
        ["geotiffCorners", "a.tif"]).status = 1
      ∧ (main (fun _ => some (withoutTransform 3 threeGCPs)) fitSucceeds
          ["geotiffCorners", "a.tif"]).log.out
          = [Out.text "No geotransform found\n",
             Out.text "Error creating geotransform from GCPs\n"]
      ∧ coordsOf (main (fun _ => some (withoutTransform 3 threeGCPs)) fitSucceeds
          ["geotiffCorners", "a.tif"]).log.out = []
      ∧ coordsOf (main (fun _ => some tenByTen) fitSucceeds ["geotiffCorners", "a.tif"]).log.out
          = [(1/2, -1/2), (19/2, -1/2), (19/2, -19/2), (1/2, -19/2)] := by
  rw [main_fit_failure (fun _ => some (withoutTransform 3 threeGCPs)) fitSucceeds
    ["geotiffCorners", "a.tif"] (withoutTransform 3 threeGCPs) rfl rfl (by decide) (by decide)
    (by decide) (by decide),
    main_direct (fun _ => some tenByTen) fitSucceeds ["geotiffCorners", "a.tif"] tenByTen
    rfl rfl (by decide) rfl]
  refine ⟨rfl, rfl, rfl, ?_⟩
  simp only [coordsOf_directLines, specCorners, specCorner, tenByTen, unitTransform]
  norm_num

end GeotiffCorners
